import Mathlib

/-!
Shallow embedding of the core of `src/app.py` (ConsultingAssistant):
the document normalizer `input_pdf_setup`, the inference invoker
`get_gemini_response`, and the catalog of instruction templates together
with the button dispatch that selects one template per user action.

External capabilities (the `pdf2image` rasterizer, the PIL JPEG encoder and
the Gemini model call) are passed as explicit function parameters; a raised
Python exception is an `Except.error` value; the Streamlit messages a run
emits (`st.error` / `st.warning` / `st.info`) are collected in a list.
-/

namespace ConsultingAssistant

/-- A Python file-like object, as handed to `input_pdf_setup` by the
Streamlit uploader: the byte contents plus the current read position. -/
structure UploadedFile where
  data : List Nat
  pos : Nat
deriving DecidableEq

/-- `uploaded_file.seek(0)`: reset the read position to the origin. -/
def seek0 (f : UploadedFile) : UploadedFile := { f with pos := 0 }

/-- `uploaded_file.read()`: return all bytes from the current position to the
end of the stream, and leave the position at the end. -/
def read (f : UploadedFile) : List Nat × UploadedFile :=
  (f.data.drop f.pos, { f with pos := f.data.length })

/-- An exception raised by `pdf2image.convert_from_bytes`: either the bytes do
not decode as a PDF document, or the native runtime prerequisite (poppler) is
absent (`PDFInfoNotInstalledError`). The `except` clause in the source sees
only the exception value and formats it with `str`, which yields the
exception's message. -/
inductive PdfError where
  | decodeError (msg : String)
  | missingDependency (msg : String)
deriving DecidableEq

/-- `str(pdf_error)`: the message carried by the exception. -/
def PdfError.str : PdfError → String
  | .decodeError m => m
  | .missingDependency m => m

/-- The Python exception `input_pdf_setup` itself raises on a `None` argument. -/
inductive PyExn where
  | fileNotFoundError (msg : String)
deriving DecidableEq

/-- A Streamlit UI message emitted via `st.error`, `st.warning` or `st.info`. -/
inductive UiMsg where
  | error (s : String)
  | warning (s : String)
  | info (s : String)
deriving DecidableEq

/-- One entry of the `pdf_parts` list built by `input_pdf_setup`. -/
structure PdfPart where
  mime_type : String
  data : String
deriving DecidableEq

/-- The RFC 4648 base64 alphabet used by Python's `base64.b64encode`. -/
def base64Alphabet : List Char :=
  "ABCDEFGHIJKLMNOPQRSTUVWXYZabcdefghijklmnopqrstuvwxyz0123456789+/".data

/-- The base64 digit for a 6-bit value. -/
def base64Digit (n : Nat) : Char := base64Alphabet.getD n 'A'

/-- `base64.b64encode(bytes).decode()`: base64-encode a byte sequence,
three input bytes to four output characters, padded with `=`. -/
def base64Encode : List Nat → String
  | [] => ""
  | [a] =>
      String.mk [base64Digit (a / 4), base64Digit (a % 4 * 16), '=', '=']
  | [a, b] =>
      String.mk [base64Digit (a / 4), base64Digit (a % 4 * 16 + b / 16),
        base64Digit (b % 16 * 4), '=']
  | a :: b :: c :: rest =>
      String.mk [base64Digit (a / 4), base64Digit (a % 4 * 16 + b / 16),
        base64Digit (b % 16 * 4 + c / 64), base64Digit (c % 64)]
        ++ base64Encode rest

/-- The `st.info` troubleshooting text of the inner `except` branch of
`input_pdf_setup` (verbatim, with the source's indentation). -/
def pdfTroubleshootingInfo : String :=
  "\n" ++
  "                **Troubleshooting Steps:**\n" ++
  "                1. Ensure the PDF file is not corrupted\n" ++
  "                2. Try with a different PDF file\n" ++
  "                3. Check if poppler-utils is properly installed\n" ++
  "                4. For Streamlit Cloud, ensure packages.txt contains \x27poppler-utils\x27\n" ++
  "                "

/-- The outcome of `input_pdf_setup`'s inner `except` branch: the PDF could
not be decoded; no payload (`None`), an `st.error` naming the underlying
exception, the troubleshooting `st.info`, and the final stream state. -/
def corruptDocumentResult (m : String) (f : UploadedFile) :
    Option (List PdfPart) × List UiMsg × UploadedFile :=
  (none, [UiMsg.error ("PDF processing error: " ++ m),
    UiMsg.info pdfTroubleshootingInfo], f)

/-- The outcome of `input_pdf_setup`'s zero-pages branch: no payload
(`None`), the `st.warning` that no pages were found, and the final stream
state. -/
def emptyDocumentResult (f : UploadedFile) :
    Option (List PdfPart) × List UiMsg × UploadedFile :=
  (none,
    [UiMsg.warning "No pages found in the PDF. Please check if the PDF file is valid."],
    f)

/-- `input_pdf_setup` from `src/app.py`, with the two external capabilities
as parameters: `convert` is `pdf2image.convert_from_bytes` (which either
returns the list of page images or raises a `PdfError`), and `jpeg` is
`first_page.save(img_byte_arr, format='JPEG')` followed by `.getvalue()`
(which either yields the JPEG-compressed bytes or raises, the one fallible
step inside the outer `try` not already guarded by the inner one).
The result is the Python return value (the `pdf_parts` list, or `None` on
the handled failure branches) together with the Streamlit messages emitted
and the final stream state — or, for a `None` argument, the
`FileNotFoundError` the source raises. -/
def input_pdf_setup {Img : Type}
    (convert : List Nat → Except PdfError (List Img))
    (jpeg : Img → Except String (List Nat))
    (uploaded_file : Option UploadedFile) :
    Except PyExn (Option (List PdfPart) × List UiMsg × UploadedFile) :=
  match uploaded_file with
  | some file =>
      let file := seek0 file
      let bytes := (read file).1
      let file := (read file).2
      match convert bytes with
      | .error pdf_error =>
          .ok (corruptDocumentResult pdf_error.str file)
      | .ok images =>
          match images with
          | [] => .ok (emptyDocumentResult file)
          | first_page :: _ =>
              match jpeg first_page with
              | .error e =>
                  .ok (none,
                    [UiMsg.error ("Unexpected error processing PDF: " ++ e),
                     UiMsg.info "Please try uploading a different PDF file or contact support if the issue persists."],
                    file)
              | .ok img_byte_arr =>
                  let pdf_parts :=
                    [PdfPart.mk "image/jpeg" (base64Encode img_byte_arr)]
                  .ok (some pdf_parts, [], file)
  | none => .error (PyExn.fileNotFoundError "No file uploaded")

/-- The outcome of the Gemini capability (`GenerativeModel` construction,
`generate_content`, and the `response.text` accessor): either the generated
text, or a raised exception carrying a message. -/
inductive GenOutcome where
  | success (text : String)
  | failure (msg : String)
deriving DecidableEq

/-- The string `get_gemini_response` returns from its `except` branch,
wrapping the original exception message. -/
def inferenceErrorText (m : String) : String :=
  "Error: Unable to process the document. Please check your API key and try again. Error details: " ++ m

/-- `get_gemini_response` from `src/app.py`, with the Gemini capability as a
parameter taking the three members of the list passed to `generate_content`:
the context, `pdf_content[0]` and the prompt. Indexing an empty
`pdf_content` raises an `IndexError` inside the `try`, caught like any other
failure. The result is the returned string together with the Streamlit
messages emitted. -/
def get_gemini_response (generate : String → PdfPart → String → GenOutcome)
    (context : String) (pdf_content : List PdfPart) (prompt : String) :
    String × List UiMsg :=
  match pdf_content with
  | [] =>
      (inferenceErrorText "list index out of range",
       [UiMsg.error ("Error generating response: " ++ "list index out of range")])
  | part :: _ =>
      match generate context part prompt with
      | .success t => (t, [])
      | .failure m =>
          (inferenceErrorText m,
           [UiMsg.error ("Error generating response: " ++ m)])

/-- The instruction template `input_prompt_email` from `src/app.py`, dispatched by the Generate Stakeholder Email button (`submit_email`) (verbatim). -/
def input_prompt_email : String :=
  "\n" ++
  "You are an IT Consulting Professional preparing a summary email for stakeholders about project understanding and next steps. Create a professional email that includes:\n" ++
  "\n" ++
  "SUBJECT: IT Project Analysis Summary - [Document Type] Review\n" ++
  "\n" ++
  "Dear [Stakeholder Name],\n" ++
  "\n" ++
  "I hope this email finds you well. I have completed the initial analysis of the [Document Type] and would like to provide you with a comprehensive understanding of the project scope and our recommended next steps.\n" ++
  "\n" ++
  "## Project Understanding Summary:\n" ++
  "[Provide a 3-4 line summary of the project scope, objectives, and key deliverables based on the document analysis]\n" ++
  "\n" ++
  "## Key Findings & Recommendations:\n" ++
  "[Present the main technical findings, architecture recommendations, and strategic insights in bullet points]\n" ++
  "\n" ++
  "## Critical Questions Requiring Your Input:\n" ++
  "[Create a table with the following columns]\n" ++
  "| Priority | Question/Clarification Needed | Impact | Recommended Action |\n" ++
  "|----------|------------------------------|--------|-------------------|\n" ++
  "[Fill with identified gaps and questions that need stakeholder clarification]\n" ++
  "\n" ++
  "## Technical Feasibility Assessment:\n" ++
  "- **Overall Feasibility:** [High/Medium/Low]\n" ++
  "- **Key Technical Challenges:** [List main technical hurdles]\n" ++
  "- **Resource Requirements:** [Skills, team size, timeline estimates]\n" ++
  "- **Risk Factors:** [Technical and business risks identified]\n" ++
  "\n" ++
  "## Recommended Implementation Approach:\n" ++
  "[Outline the proposed methodology, technology stack, and implementation phases]\n" ++
  "\n" ++
  "## Next Steps & Timeline:\n" ++
  "[Provide a clear action plan with specific deliverables and timelines]\n" ++
  "\n" ++
  "## Questions for Your Review:\n" ++
  "1. [Specific question about requirements or constraints]\n" ++
  "2. [Question about budget or timeline preferences]\n" ++
  "3. [Question about stakeholder availability or decision-making process]\n" ++
  "\n" ++
  "Please review the attached detailed analysis and provide your feedback on the above points, particularly regarding [mention 1-2 specific critical decisions needed].\n" ++
  "\n" ++
  "I am available for a detailed discussion at your convenience to address any questions or concerns.\n" ++
  "\n" ++
  "Best regards,\n" ++
  "[Your Name]\n" ++
  "IT Consulting Team\n" ++
  "\n" ++
  "Note: Please find the detailed technical analysis and recommendations attached to this email.\n" ++
  "\n" ++
  "Format this email professionally and ensure all critical information is clearly presented for stakeholder decision-making.\n"

/-- The instruction template `input_prompt1` from `src/app.py`, dispatched by the BRD Analysis button (`submit1`) (verbatim). -/
def input_prompt1 : String :=
  "\n" ++
  "You are a Senior IT Consultant specializing in Business Requirements Document (BRD) analysis. Analyze this BRD document and provide comprehensive insights for IT consulting projects.\n" ++
  "\n" ++
  "Please provide a detailed analysis in the following structure:\n" ++
  "\n" ++
  "## 1. BRD Overview & Business Context\n" ++
  "- Document type and business domain\n" ++
  "- Primary business objectives and goals\n" ++
  "- Key stakeholders and end users\n" ++
  "- Current pain points or business challenges\n" ++
  "- Expected business outcomes and success metrics\n" ++
  "\n" ++
  "## 2. Business Process Analysis\n" ++
  "- Identify all major business processes from the BRD\n" ++
  "- Map current vs. desired state for each process\n" ++
  "- Highlight automation and optimization opportunities\n" ++
  "- Identify integration points between processes\n" ++
  "- Document process dependencies and workflows\n" ++
  "\n" ++
  "## 3. Functional Requirements Analysis\n" ++
  "- Core functional requirements breakdown\n" ++
  "- User stories and use cases identification\n" ++
  "- Business rules and constraints\n" ++
  "- Data requirements and flows\n" ++
  "- Reporting and analytics needs\n" ++
  "\n" ++
  "## 4. Non-Functional Requirements\n" ++
  "- Performance requirements\n" ++
  "- Security and compliance needs\n" ++
  "- Scalability considerations\n" ++
  "- Usability and accessibility requirements\n" ++
  "- Integration requirements\n" ++
  "\n" ++
  "## 5. Technology Implications\n" ++
  "- Current technology landscape assessment\n" ++
  "- Technology gaps and opportunities\n" ++
  "- Recommended technology stack considerations\n" ++
  "- Integration requirements with existing systems\n" ++
  "- Data migration and conversion needs\n" ++
  "\n" ++
  "## 6. Risk Assessment\n" ++
  "- Technical risks and challenges\n" ++
  "- Business risks and dependencies\n" ++
  "- Resource and timeline risks\n" ++
  "- Compliance and regulatory risks\n" ++
  "- Mitigation strategies\n" ++
  "\n" ++
  "## 7. Recommendations & Next Steps\n" ++
  "- Priority implementation recommendations\n" ++
  "- Phased approach suggestions\n" ++
  "- Resource requirements estimation\n" ++
  "- Timeline recommendations\n" ++
  "- Success criteria and KPIs\n" ++
  "\n" ++
  "Present your analysis in a structured format with clear sections, bullet points, and actionable recommendations for IT consulting projects.\n"

/-- The instruction template `input_prompt2` from `src/app.py`, dispatched by the CRD Analysis button (`submit2`) (verbatim). -/
def input_prompt2 : String :=
  "\n" ++
  "You are a Senior IT Consultant specializing in Customer Requirements Document (CRD) analysis. Analyze this CRD document and provide comprehensive solution mapping and gap analysis for IT consulting projects.\n" ++
  "\n" ++
  "Please provide a detailed analysis in the following structure:\n" ++
  "\n" ++
  "## 1. CRD Overview & Customer Context\n" ++
  "- Document type and customer domain\n" ++
  "- Primary customer objectives and pain points\n" ++
  "- Key customer stakeholders and decision makers\n" ++
  "- Current customer challenges and limitations\n" ++
  "- Expected customer outcomes and value proposition\n" ++
  "\n" ++
  "## 2. Customer Requirements Analysis\n" ++
  "- Functional requirements breakdown\n" ++
  "- Non-functional requirements assessment\n" ++
  "- User experience requirements\n" ++
  "- Integration requirements with customer systems\n" ++
  "- Data and reporting requirements\n" ++
  "\n" ++
  "## 3. Solution Mapping\n" ++
  "- Current customer solution assessment\n" ++
  "- Gap analysis between current and desired state\n" ++
  "- Solution architecture recommendations\n" ++
  "- Technology stack alignment with customer needs\n" ++
  "- Integration strategy with existing customer systems\n" ++
  "\n" ++
  "## 4. Customer Journey & User Experience\n" ++
  "- End-user journey mapping\n" ++
  "- User interface and experience requirements\n" ++
  "- Accessibility and usability considerations\n" ++
  "- Training and support requirements\n" ++
  "- Change management considerations\n" ++
  "\n" ++
  "## 5. Technical Feasibility Assessment\n" ++
  "- Technical complexity evaluation\n" ++
  "- Resource requirements estimation\n" ++
  "- Timeline feasibility assessment\n" ++
  "- Risk factors and mitigation strategies\n" ++
  "- Scalability and performance considerations\n" ++
  "\n" ++
  "## 6. Business Value Proposition\n" ++
  "- ROI analysis and business case\n" ++
  "- Cost-benefit analysis\n" ++
  "- Competitive advantages\n" ++
  "- Market positioning\n" ++
  "- Success metrics and KPIs\n" ++
  "\n" ++
  "## 7. Implementation Strategy\n" ++
  "- Phased implementation approach\n" ++
  "- Resource allocation recommendations\n" ++
  "- Timeline and milestone planning\n" ++
  "- Risk management strategies\n" ++
  "- Quality assurance and testing approach\n" ++
  "\n" ++
  "Present your analysis with clear recommendations for IT consulting projects, focusing on customer value and successful solution delivery.\n"

/-- The instruction template `input_prompt3` from `src/app.py`, dispatched by the Technical Document Analysis button (`submit3`) (verbatim). -/
def input_prompt3 : String :=
  "\n" ++
  "You are a Senior Technical Architect and IT Consultant specializing in technical document analysis. Analyze this technical document and provide comprehensive technical insights and recommendations.\n" ++
  "\n" ++
  "Please provide a detailed analysis in the following structure:\n" ++
  "\n" ++
  "## 1. Technical Document Overview\n" ++
  "- Document type and technical domain\n" ++
  "- Primary technical objectives\n" ++
  "- Target audience and stakeholders\n" ++
  "- Current technical challenges\n" ++
  "- Expected technical outcomes\n" ++
  "\n" ++
  "## 2. Technical Architecture Analysis\n" ++
  "- Current architecture assessment\n" ++
  "- Architecture patterns and design principles\n" ++
  "- Technology stack evaluation\n" ++
  "- Scalability and performance considerations\n" ++
  "- Security and compliance requirements\n" ++
  "\n" ++
  "## 3. System Design & Components\n" ++
  "- System components and modules\n" ++
  "- Data flow and integration points\n" ++
  "- API design and specifications\n" ++
  "- Database design and data modeling\n" ++
  "- Infrastructure requirements\n" ++
  "\n" ++
  "## 4. Technical Requirements Analysis\n" ++
  "- Functional technical requirements\n" ++
  "- Non-functional technical requirements\n" ++
  "- Performance and scalability requirements\n" ++
  "- Security and compliance requirements\n" ++
  "- Integration and interoperability requirements\n" ++
  "\n" ++
  "## 5. Technology Stack Recommendations\n" ++
  "- Programming languages and frameworks\n" ++
  "- Database and storage solutions\n" ++
  "- Cloud platform recommendations\n" ++
  "- DevOps and CI/CD tools\n" ++
  "- Monitoring and logging solutions\n" ++
  "\n" ++
  "## 6. Technical Risk Assessment\n" ++
  "- Technical complexity risks\n" ++
  "- Performance and scalability risks\n" ++
  "- Security and compliance risks\n" ++
  "- Integration and compatibility risks\n" ++
  "- Resource and skill requirements\n" ++
  "\n" ++
  "## 7. Implementation Recommendations\n" ++
  "- Development methodology recommendations\n" ++
  "- Technical implementation phases\n" ++
  "- Resource and skill requirements\n" ++
  "- Timeline and milestone planning\n" ++
  "- Quality assurance and testing strategy\n" ++
  "\n" ++
  "Present your analysis with technical depth and practical recommendations for IT consulting projects.\n"

/-- The instruction template `input_prompt4` from `src/app.py`, dispatched by the Pre-Execution Questions button (`submit4`) (verbatim). -/
def input_prompt4 : String :=
  "\n" ++
  "You are a Senior IT Project Manager and Business Analyst specializing in pre-execution project analysis. Analyze this document and identify critical questions, gaps, and clarifications needed before project execution.\n" ++
  "\n" ++
  "Please provide a comprehensive analysis in the following structure:\n" ++
  "\n" ++
  "## 1. Project Scope Analysis\n" ++
  "- Current scope understanding\n" ++
  "- Scope gaps and ambiguities\n" ++
  "- Missing requirements identification\n" ++
  "- Scope creep risk assessment\n" ++
  "- Scope validation questions\n" ++
  "\n" ++
  "## 2. Stakeholder Analysis & Communication\n" ++
  "- Key stakeholder identification\n" ++
  "- Stakeholder expectations alignment\n" ++
  "- Communication plan requirements\n" ++
  "- Decision-making process clarification\n" ++
  "- Stakeholder availability and commitment\n" ++
  "\n" ++
  "## 3. Technical Questions & Clarifications\n" ++
  "- Technical architecture decisions needed\n" ++
  "- Technology stack selection criteria\n" ++
  "- Integration requirements clarification\n" ++
  "- Performance and scalability requirements\n" ++
  "- Security and compliance requirements\n" ++
  "\n" ++
  "## 4. Resource & Timeline Questions\n" ++
  "- Team composition and skill requirements\n" ++
  "- Resource availability and allocation\n" ++
  "- Timeline feasibility and constraints\n" ++
  "- Budget allocation and approval process\n" ++
  "- External dependencies and vendors\n" ++
  "\n" ++
  "## 5. Risk & Compliance Questions\n" ++
  "- Technical risk mitigation strategies\n" ++
  "- Business risk assessment\n" ++
  "- Compliance and regulatory requirements\n" ++
  "- Legal and contractual considerations\n" ++
  "- Insurance and liability coverage\n" ++
  "\n" ++
  "## 6. Success Criteria & KPIs\n" ++
  "- Project success definition\n" ++
  "- Key performance indicators\n" ++
  "- Quality assurance criteria\n" ++
  "- User acceptance criteria\n" ++
  "- Go-live and deployment criteria\n" ++
  "\n" ++
  "## 7. Critical Questions Matrix\n" ++
  "Create a detailed table with the following columns:\n" ++
  "| Priority | Category | Question/Clarification | Impact | Owner | Timeline |\n" ++
  "|----------|----------|------------------------|--------|-------|----------|\n" ++
  "[Fill with specific questions that need stakeholder input]\n" ++
  "\n" ++
  "## 8. Recommended Next Steps\n" ++
  "- Immediate actions required\n" ++
  "- Stakeholder meetings needed\n" ++
  "- Documentation requirements\n" ++
  "- Approval processes\n" ++
  "- Timeline for clarifications\n" ++
  "\n" ++
  "Present your analysis with clear, actionable questions that will help ensure project success and stakeholder alignment.\n"

/-- The instruction template `input_prompt5` from `src/app.py`, dispatched by the Project Feasibility button (`submit5`) (verbatim). -/
def input_prompt5 : String :=
  "\n" ++
  "You are a Senior IT Project Manager and Technical Architect specializing in project feasibility analysis. Analyze this document and provide comprehensive feasibility assessment for IT consulting projects.\n" ++
  "\n" ++
  "Please provide a detailed analysis in the following structure:\n" ++
  "\n" ++
  "## 1. Technical Feasibility Assessment\n" ++
  "- **Overall Technical Feasibility:** [High/Medium/Low]\n" ++
  "- Technology maturity and availability\n" ++
  "- Technical complexity evaluation\n" ++
  "- Integration feasibility with existing systems\n" ++
  "- Performance and scalability considerations\n" ++
  "- Security and compliance requirements\n" ++
  "\n" ++
  "## 2. Resource Feasibility Analysis\n" ++
  "- **Team Requirements:**\n" ++
  "  - Required skills and expertise\n" ++
  "  - Team size and composition\n" ++
  "  - Availability and allocation\n" ++
  "  - Training and knowledge transfer needs\n" ++
  "- **Infrastructure Requirements:**\n" ++
  "  - Hardware and software needs\n" ++
  "  - Cloud platform requirements\n" ++
  "  - Development and testing environments\n" ++
  "  - Production deployment requirements\n" ++
  "\n" ++
  "## 3. Timeline Feasibility Assessment\n" ++
  "- **Project Timeline Analysis:**\n" ++
  "  - Estimated project duration\n" ++
  "  - Critical path identification\n" ++
  "  - Milestone planning\n" ++
  "  - Dependencies and constraints\n" ++
  "- **Risk Factors:**\n" ++
  "  - Timeline risks and mitigation\n" ++
  "  - Resource availability risks\n" ++
  "  - Technical complexity risks\n" ++
  "  - External dependency risks\n" ++
  "\n" ++
  "## 4. Budget & Cost Feasibility\n" ++
  "- **Cost Breakdown:**\n" ++
  "  - Development costs\n" ++
  "  - Infrastructure costs\n" ++
  "  - Licensing and third-party costs\n" ++
  "  - Maintenance and support costs\n" ++
  "- **ROI Analysis:**\n" ++
  "  - Expected benefits\n" ++
  "  - Cost-benefit analysis\n" ++
  "  - Payback period\n" ++
  "  - Risk-adjusted returns\n" ++
  "\n" ++
  "## 5. Business Feasibility\n" ++
  "- **Business Case Validation:**\n" ++
  "  - Alignment with business objectives\n" ++
  "  - Stakeholder buy-in assessment\n" ++
  "  - Market and competitive analysis\n" ++
  "  - Regulatory and compliance requirements\n" ++
  "- **Change Management:**\n" ++
  "  - Organizational readiness\n" ++
  "  - User adoption considerations\n" ++
  "  - Training and support requirements\n" ++
  "  - Resistance and mitigation strategies\n" ++
  "\n" ++
  "## 6. Risk Assessment & Mitigation\n" ++
  "- **Technical Risks:**\n" ++
  "  - Technology risks and mitigation\n" ++
  "  - Integration risks and strategies\n" ++
  "  - Performance and scalability risks\n" ++
  "  - Security and compliance risks\n" ++
  "- **Business Risks:**\n" ++
  "  - Market and competitive risks\n" ++
  "  - Resource and timeline risks\n" ++
  "  - Stakeholder and change management risks\n" ++
  "  - Financial and budget risks\n" ++
  "\n" ++
  "## 7. Feasibility Recommendations\n" ++
  "- **Go/No-Go Decision Factors:**\n" ++
  "  - Critical success factors\n" ++
  "  - Deal-breaker conditions\n" ++
  "  - Risk tolerance assessment\n" ++
  "  - Alternative approaches\n" ++
  "- **Implementation Strategy:**\n" ++
  "  - Recommended approach\n" ++
  "  - Phased implementation plan\n" ++
  "  - Risk mitigation strategies\n" ++
  "  - Success monitoring plan\n" ++
  "\n" ++
  "Present your analysis with clear feasibility indicators, risk assessments, and actionable recommendations for project decision-making.\n"

/-- The instruction template `input_prompt6` from `src/app.py`, dispatched by the Architecture Recommendations button (`submit6`) (verbatim). -/
def input_prompt6 : String :=
  "\n" ++
  "You are a Senior Technical Architect and IT Consultant specializing in architecture and technology stack recommendations. Analyze this document and provide comprehensive architecture and technology recommendations.\n" ++
  "\n" ++
  "Please provide a detailed analysis in the following structure:\n" ++
  "\n" ++
  "## 1. Architecture Assessment & Recommendations\n" ++
  "- **Current Architecture Analysis:**\n" ++
  "  - Existing system architecture\n" ++
  "  - Architecture patterns evaluation\n" ++
  "  - Scalability and performance assessment\n" ++
  "  - Integration complexity analysis\n" ++
  "- **Recommended Architecture:**\n" ++
  "  - Architecture pattern selection\n" ++
  "  - Component design recommendations\n" ++
  "  - Data flow and integration design\n" ++
  "  - Security architecture considerations\n" ++
  "\n" ++
  "## 2. Technology Stack Recommendations\n" ++
  "- **Frontend Technologies:**\n" ++
  "  - Framework recommendations (React, Angular, Vue, etc.)\n" ++
  "  - UI/UX libraries and tools\n" ++
  "  - Mobile and responsive considerations\n" ++
  "  - Performance optimization tools\n" ++
  "- **Backend Technologies:**\n" ++
  "  - Programming languages (Java, Python, Node.js, etc.)\n" ++
  "  - Framework recommendations\n" ++
  "  - API design and management\n" ++
  "  - Microservices considerations\n" ++
  "- **Database & Storage:**\n" ++
  "  - Database type recommendations (SQL, NoSQL, etc.)\n" ++
  "  - Specific database technologies\n" ++
  "  - Data modeling considerations\n" ++
  "  - Backup and recovery strategies\n" ++
  "\n" ++
  "## 3. Cloud & Infrastructure Recommendations\n" ++
  "- **Cloud Platform:**\n" ++
  "  - Platform recommendations (AWS, Azure, GCP)\n" ++
  "  - Service selection and optimization\n" ++
  "  - Cost optimization strategies\n" ++
  "  - Multi-cloud considerations\n" ++
  "- **Infrastructure as Code:**\n" ++
  "  - IaC tools and practices\n" ++
  "  - Containerization strategies\n" ++
  "  - Orchestration platforms\n" ++
  "  - Monitoring and logging solutions\n" ++
  "\n" ++
  "## 4. Integration & API Strategy\n" ++
  "- **Integration Architecture:**\n" ++
  "  - API design patterns\n" ++
  "  - Integration middleware recommendations\n" ++
  "  - Data transformation and mapping\n" ++
  "  - Real-time vs. batch processing\n" ++
  "- **Third-Party Integrations:**\n" ++
  "  - Recommended third-party services\n" ++
  "  - API management and governance\n" ++
  "  - Security and authentication\n" ++
  "  - Rate limiting and throttling\n" ++
  "\n" ++
  "## 5. Security & Compliance Architecture\n" ++
  "- **Security Framework:**\n" ++
  "  - Authentication and authorization\n" ++
  "  - Data encryption and protection\n" ++
  "  - Network security considerations\n" ++
  "  - Compliance requirements (GDPR, HIPAA, etc.)\n" ++
  "- **DevSecOps Integration:**\n" ++
  "  - Security scanning and testing\n" ++
  "  - Vulnerability management\n" ++
  "  - Compliance monitoring\n" ++
  "  - Incident response planning\n" ++
  "\n" ++
  "## 6. Performance & Scalability Architecture\n" ++
  "- **Performance Optimization:**\n" ++
  "  - Caching strategies\n" ++
  "  - Load balancing recommendations\n" ++
  "  - Database optimization\n" ++
  "  - CDN and content delivery\n" ++
  "- **Scalability Planning:**\n" ++
  "  - Horizontal vs. vertical scaling\n" ++
  "  - Auto-scaling strategies\n" ++
  "  - Performance monitoring\n" ++
  "  - Capacity planning\n" ++
  "\n" ++
  "## 7. Implementation Roadmap\n" ++
  "- **Technology Adoption Strategy:**\n" ++
  "  - Phased implementation approach\n" ++
  "  - Technology migration planning\n" ++
  "  - Risk mitigation strategies\n" ++
  "  - Success criteria and KPIs\n" ++
  "- **Resource Planning:**\n" ++
  "  - Skill requirements and training\n" ++
  "  - Team composition recommendations\n" ++
  "  - Vendor and partner selection\n" ++
  "  - Timeline and milestone planning\n" ++
  "\n" ++
  "Present your analysis with specific technology recommendations, architecture diagrams where applicable, and implementation guidance for successful project delivery.\n"

/-- The instruction template `input_prompt_roadmap` from `src/app.py`, dispatched by the Implementation Roadmap button (`submit_roadmap`) (verbatim). -/
def input_prompt_roadmap : String :=
  "\n" ++
  "You are a Senior IT Project Manager and Technical Architect specializing in implementation roadmap development. Analyze this document and provide a comprehensive implementation roadmap with detailed project planning and risk assessment.\n" ++
  "\n" ++
  "Please provide a detailed analysis in the following structure:\n" ++
  "\n" ++
  "## 1. Project Overview & Scope\n" ++
  "- **Project Summary:**\n" ++
  "  - Project objectives and goals\n" ++
  "  - Scope boundaries and deliverables\n" ++
  "  - Key stakeholders and decision makers\n" ++
  "  - Success criteria and KPIs\n" ++
  "- **Business Case:**\n" ++
  "  - ROI analysis and business value\n" ++
  "  - Cost-benefit justification\n" ++
  "  - Risk-adjusted returns\n" ++
  "  - Strategic alignment\n" ++
  "\n" ++
  "## 2. Implementation Strategy\n" ++
  "- **Approach Selection:**\n" ++
  "  - Waterfall vs. Agile vs. Hybrid approach\n" ++
  "  - Phased implementation strategy\n" ++
  "  - Parallel vs. sequential execution\n" ++
  "  - Risk mitigation approach\n" ++
  "- **Methodology:**\n" ++
  "  - Development methodology (Scrum, Kanban, etc.)\n" ++
  "  - Quality assurance approach\n" ++
  "  - Testing strategy (Unit, Integration, UAT)\n" ++
  "  - Deployment strategy\n" ++
  "\n" ++
  "## 3. Detailed Implementation Roadmap\n" ++
  "\n" ++
  "### Phase 1: Foundation & Setup (Weeks 1-4)\n" ++
  "- **Activities:**\n" ++
  "  - Project team formation and setup\n" ++
  "  - Infrastructure and environment setup\n" ++
  "  - Tool selection and configuration\n" ++
  "  - Initial architecture design\n" ++
  "- **Deliverables:**\n" ++
  "  - Project charter and governance\n" ++
  "  - Technical architecture document\n" ++
  "  - Development environment setup\n" ++
  "  - Team training and onboarding\n" ++
  "- **Timeline:** 4 weeks\n" ++
  "- **Resources:** [List required resources]\n" ++
  "- **Risks:** [Identify risks and mitigation]\n" ++
  "\n" ++
  "### Phase 2: Core Development (Weeks 5-16)\n" ++
  "- **Activities:**\n" ++
  "  - Core system development\n" ++
  "  - Database design and implementation\n" ++
  "  - API development and integration\n" ++
  "  - User interface development\n" ++
  "- **Deliverables:**\n" ++
  "  - Core system modules\n" ++
  "  - Database schema and data\n" ++
  "  - API documentation\n" ++
  "  - UI/UX components\n" ++
  "- **Timeline:** 12 weeks\n" ++
  "- **Resources:** [List required resources]\n" ++
  "- **Risks:** [Identify risks and mitigation]\n" ++
  "\n" ++
  "### Phase 3: Integration & Testing (Weeks 17-20)\n" ++
  "- **Activities:**\n" ++
  "  - System integration\n" ++
  "  - Comprehensive testing\n" ++
  "  - Performance optimization\n" ++
  "  - Security testing\n" ++
  "- **Deliverables:**\n" ++
  "  - Integrated system\n" ++
  "  - Test results and reports\n" ++
  "  - Performance benchmarks\n" ++
  "  - Security assessment\n" ++
  "- **Timeline:** 4 weeks\n" ++
  "- **Resources:** [List required resources]\n" ++
  "- **Risks:** [Identify risks and mitigation]\n" ++
  "\n" ++
  "### Phase 4: Deployment & Go-Live (Weeks 21-24)\n" ++
  "- **Activities:**\n" ++
  "  - Production deployment\n" ++
  "  - User acceptance testing\n" ++
  "  - Training and documentation\n" ++
  "  - Go-live support\n" ++
  "- **Deliverables:**\n" ++
  "  - Production system\n" ++
  "  - User training materials\n" ++
  "  - System documentation\n" ++
  "  - Support procedures\n" ++
  "- **Timeline:** 4 weeks\n" ++
  "- **Resources:** [List required resources]\n" ++
  "- **Risks:** [Identify risks and mitigation]\n" ++
  "\n" ++
  "## 4. Resource Planning & Allocation\n" ++
  "- **Team Structure:**\n" ++
  "  - Project Manager\n" ++
  "  - Technical Lead/Architect\n" ++
  "  - Developers (Frontend/Backend)\n" ++
  "  - QA Engineers\n" ++
  "  - DevOps Engineers\n" ++
  "  - Business Analysts\n" ++
  "- **Skill Requirements:**\n" ++
  "  - Technical skills and expertise\n" ++
  "  - Domain knowledge requirements\n" ++
  "  - Training and certification needs\n" ++
  "  - External consultant requirements\n" ++
  "- **Resource Timeline:**\n" ++
  "  - Resource allocation by phase\n" ++
  "  - Ramp-up and ramp-down planning\n" ++
  "  - Backup and contingency planning\n" ++
  "\n" ++
  "## 5. Risk Assessment & Mitigation\n" ++
  "- **Technical Risks:**\n" ++
  "  - Technology complexity risks\n" ++
  "  - Integration challenges\n" ++
  "  - Performance and scalability issues\n" ++
  "  - Security vulnerabilities\n" ++
  "- **Project Risks:**\n" ++
  "  - Timeline and scope risks\n" ++
  "  - Resource availability risks\n" ++
  "  - Stakeholder alignment risks\n" ++
  "  - Budget and cost risks\n" ++
  "- **Mitigation Strategies:**\n" ++
  "  - Risk prevention measures\n" ++
  "  - Contingency planning\n" ++
  "  - Escalation procedures\n" ++
  "  - Regular risk reviews\n" ++
  "\n" ++
  "## 6. Quality Assurance & Testing\n" ++
  "- **Testing Strategy:**\n" ++
  "  - Unit testing approach\n" ++
  "  - Integration testing plan\n" ++
  "  - User acceptance testing\n" ++
  "  - Performance testing\n" ++
  "- **Quality Gates:**\n" ++
  "  - Definition of Done criteria\n" ++
  "  - Quality checkpoints\n" ++
  "  - Review and approval processes\n" ++
  "  - Go-live readiness criteria\n" ++
  "\n" ++
  "## 7. Communication & Stakeholder Management\n" ++
  "- **Communication Plan:**\n" ++
  "  - Stakeholder communication matrix\n" ++
  "  - Reporting frequency and format\n" ++
  "  - Escalation procedures\n" ++
  "  - Change management approach\n" ++
  "- **Stakeholder Engagement:**\n" ++
  "  - Key stakeholder identification\n" ++
  "  - Engagement strategies\n" ++
  "  - Decision-making processes\n" ++
  "  - Conflict resolution procedures\n" ++
  "\n" ++
  "## 8. Budget & Cost Management\n" ++
  "- **Cost Breakdown:**\n" ++
  "  - Development costs\n" ++
  "  - Infrastructure costs\n" ++
  "  - Licensing and third-party costs\n" ++
  "  - Training and support costs\n" ++
  "- **Budget Management:**\n" ++
  "  - Cost tracking and monitoring\n" ++
  "  - Change request procedures\n" ++
  "  - Budget approval processes\n" ++
  "  - Cost optimization strategies\n" ++
  "\n" ++
  "## 9. Success Metrics & KPIs\n" ++
  "- **Project Success Metrics:**\n" ++
  "  - Timeline adherence\n" ++
  "  - Budget compliance\n" ++
  "  - Quality metrics\n" ++
  "  - Stakeholder satisfaction\n" ++
  "- **Business Success Metrics:**\n" ++
  "  - ROI achievement\n" ++
  "  - Business value delivery\n" ++
  "  - User adoption rates\n" ++
  "  - Performance improvements\n" ++
  "\n" ++
  "## 10. Post-Implementation Support\n" ++
  "- **Support Strategy:**\n" ++
  "  - Warranty period support\n" ++
  "  - Ongoing maintenance\n" ++
  "  - Enhancement planning\n" ++
  "  - Knowledge transfer\n" ++
  "- **Continuous Improvement:**\n" ++
  "  - Lessons learned documentation\n" ++
  "  - Process improvements\n" ++
  "  - Technology updates\n" ++
  "  - Future roadmap planning\n" ++
  "\n" ++
  "Present your roadmap with clear timelines, resource requirements, risk assessments, and actionable next steps for successful project execution.\n"

/-- The closed enumeration of user actions: one per analysis button of the
UI (`submit1` .. `submit6`, `submit_roadmap`, `submit_email`). -/
inductive ActionId where
  | brdAnalysis
  | crdAnalysis
  | technicalDocumentAnalysis
  | preExecutionQuestions
  | projectFeasibility
  | architectureRecommendations
  | implementationRoadmap
  | stakeholderEmail
deriving DecidableEq, Fintype

/-- The template each action dispatches to: the prompt passed to
`get_gemini_response` in the `if submit.. :` branch for that button in
`src/app.py`. -/
def templateCatalog : ActionId → String
  | .brdAnalysis => input_prompt1
  | .crdAnalysis => input_prompt2
  | .technicalDocumentAnalysis => input_prompt3
  | .preExecutionQuestions => input_prompt4
  | .projectFeasibility => input_prompt5
  | .architectureRecommendations => input_prompt6
  | .implementationRoadmap => input_prompt_roadmap
  | .stakeholderEmail => input_prompt_email


/-! Theorems. -/

/-- Helper: the result of `input_pdf_setup` does not depend on the incoming
read position of the stream, since the function seeks to the origin before
reading. -/
theorem input_pdf_setup_pos_independent {Img : Type}
    (convert : List Nat → Except PdfError (List Img))
    (jpeg : Img → Except String (List Nat)) (d : List Nat) (p q : Nat) :
    input_pdf_setup convert jpeg (some (UploadedFile.mk d p)) =
      input_pdf_setup convert jpeg (some (UploadedFile.mk d q)) := rfl

/-- Helper: every successful run of `input_pdf_setup` leaves the stream with
its data intact and the read position at the end. -/
theorem input_pdf_setup_final_stream {Img : Type}
    (convert : List Nat → Except PdfError (List Img))
    (jpeg : Img → Except String (List Nat)) (f : UploadedFile)
    (res : Option (List PdfPart)) (msgs : List UiMsg) (f' : UploadedFile)
    (h : input_pdf_setup convert jpeg (some f) = .ok (res, msgs, f')) :
    f' = UploadedFile.mk f.data f.data.length := by
  rcases hc : convert f.data with e | images
  · have hr : input_pdf_setup convert jpeg (some f) =
        .ok (corruptDocumentResult (PdfError.str e)
          (UploadedFile.mk f.data f.data.length)) := by
      simp [input_pdf_setup, seek0, read, hc]
    rw [hr] at h
    exact (congrArg (fun t => t.2.2) (Except.ok.inj h)).symm
  · rcases images with _ | ⟨first_page, restPages⟩
    · have hr : input_pdf_setup convert jpeg (some f) =
          .ok (emptyDocumentResult (UploadedFile.mk f.data f.data.length)) := by
        simp [input_pdf_setup, seek0, read, hc]
      rw [hr] at h
      exact (congrArg (fun t => t.2.2) (Except.ok.inj h)).symm
    · rcases hj : jpeg first_page with e | bs
      · have hr : input_pdf_setup convert jpeg (some f) =
            .ok (none,
              [UiMsg.error ("Unexpected error processing PDF: " ++ e),
               UiMsg.info "Please try uploading a different PDF file or contact support if the issue persists."],
              UploadedFile.mk f.data f.data.length) := by
          simp [input_pdf_setup, seek0, read, hc, hj]
        rw [hr] at h
        exact (congrArg (fun t => t.2.2) (Except.ok.inj h)).symm
      · have hr : input_pdf_setup convert jpeg (some f) =
            .ok (some [PdfPart.mk "image/jpeg" (base64Encode bs)], [],
              UploadedFile.mk f.data f.data.length) := by
          simp [input_pdf_setup, seek0, read, hc, hj]
        rw [hr] at h
        exact (congrArg (fun t => t.2.2) (Except.ok.inj h)).symm

/-- Claim C1: for every uploaded document whose rasterization yields at least
one page and whose first page JPEG-compresses to bytes `bs`, `input_pdf_setup`
returns exactly one payload: a single-element list whose only entry has
`mime_type` equal to the constant `"image/jpeg"` and `data` equal to the
base64 encoding of `bs` — regardless of how many further pages the document
has, and with no message emitted. -/
theorem input_pdf_setup_first_page_payload {Img : Type}
    (convert : List Nat → Except PdfError (List Img))
    (jpeg : Img → Except String (List Nat))
    (f : UploadedFile) (p : Img) (rest : List Img) (bs : List Nat)
    (hconv : convert f.data = .ok (p :: rest))
    (hjpeg : jpeg p = .ok bs) :
    input_pdf_setup convert jpeg (some f) =
      .ok (some [PdfPart.mk "image/jpeg" (base64Encode bs)], [],
        UploadedFile.mk f.data f.data.length) := by
  simp [input_pdf_setup, seek0, read, hconv, hjpeg]

/-- Witness for C1: a concrete three-page document (pages `5`, `6`, `7`),
whose first page compresses to the bytes `[5, 2, 3]`; the payload is the
single JPEG part carrying `base64Encode [5, 2, 3] = "BQID"`. -/
theorem input_pdf_setup_first_page_payload_witness :
    input_pdf_setup (fun _ => Except.ok [(5 : Nat), 6, 7])
        (fun i => Except.ok [i, 2, 3]) (some (UploadedFile.mk [9, 8] 1)) =
      Except.ok (some [PdfPart.mk "image/jpeg" "BQID"], [],
        UploadedFile.mk [9, 8] 2) :=
  input_pdf_setup_first_page_payload _ _ _ 5 [6, 7] [5, 2, 3] rfl rfl

/-- Claim C2: whenever the inference capability fails with message `m`,
`get_gemini_response` catches the exception and returns — as a value, not a
raised fault — the inference-error string wrapping the original message `m`,
alongside the `st.error` message. -/
theorem get_gemini_response_failure_wrapped
    (generate : String → PdfPart → String → GenOutcome)
    (context : String) (part : PdfPart) (rest : List PdfPart)
    (prompt m : String)
    (hfail : generate context part prompt = .failure m) :
    get_gemini_response generate context (part :: rest) prompt =
      (inferenceErrorText m,
        [UiMsg.error ("Error generating response: " ++ m)]) := by
  simp [get_gemini_response, hfail]

/-- Witness for C2: a stub capability that always fails with message
`"quota exceeded"`. -/
theorem get_gemini_response_failure_wrapped_witness :
    get_gemini_response (fun _ _ _ => GenOutcome.failure "quota exceeded")
        "ctx" [PdfPart.mk "image/jpeg" "AQID"] "prompt" =
      (inferenceErrorText "quota exceeded",
        [UiMsg.error ("Error generating response: " ++ "quota exceeded")]) :=
  get_gemini_response_failure_wrapped _ "ctx" _ [] "prompt" "quota exceeded" rfl

/-- Claim C3: on a document that decodes to zero pages, `input_pdf_setup`
fails with the empty-document outcome (the `st.warning` branch), and its
result is never the corrupt-document outcome (the `st.error` branch). -/
theorem input_pdf_setup_zero_pages_empty_document {Img : Type}
    (convert : List Nat → Except PdfError (List Img))
    (jpeg : Img → Except String (List Nat)) (f : UploadedFile)
    (hconv : convert f.data = .ok []) :
    input_pdf_setup convert jpeg (some f) =
      .ok (emptyDocumentResult (UploadedFile.mk f.data f.data.length)) ∧
    ∀ (m : String) (f' : UploadedFile),
      input_pdf_setup convert jpeg (some f) ≠
        .ok (corruptDocumentResult m f') := by
  have h1 : input_pdf_setup convert jpeg (some f) =
      .ok (emptyDocumentResult (UploadedFile.mk f.data f.data.length)) := by
    simp [input_pdf_setup, seek0, read, hconv]
  refine ⟨h1, fun m f' hne => ?_⟩
  rw [h1] at hne
  simp [emptyDocumentResult, corruptDocumentResult] at hne

/-- Witness for C3: a concrete decoder that decodes the bytes but finds no
pages. -/
theorem input_pdf_setup_zero_pages_empty_document_witness :
    input_pdf_setup (fun _ => Except.ok ([] : List Nat)) (fun i => Except.ok [i])
        (some (UploadedFile.mk [1, 2] 0)) =
      Except.ok (emptyDocumentResult (UploadedFile.mk [1, 2] 2)) ∧
    ∀ (m : String) (f' : UploadedFile),
      input_pdf_setup (fun _ => Except.ok ([] : List Nat)) (fun i => Except.ok [i])
          (some (UploadedFile.mk [1, 2] 0)) ≠
        Except.ok (corruptDocumentResult m f') :=
  input_pdf_setup_zero_pages_empty_document _ _ _ rfl

/-- Claim C4: on bytes the rasterization capability cannot decode (a 0-byte
file included), `input_pdf_setup` fails with the corrupt-document outcome and
never returns a payload. -/
theorem input_pdf_setup_decode_error_corrupt {Img : Type}
    (convert : List Nat → Except PdfError (List Img))
    (jpeg : Img → Except String (List Nat)) (f : UploadedFile) (m : String)
    (hconv : convert f.data = .error (PdfError.decodeError m)) :
    input_pdf_setup convert jpeg (some f) =
      .ok (corruptDocumentResult m (UploadedFile.mk f.data f.data.length)) ∧
    ∀ (parts : List PdfPart) (msgs : List UiMsg) (f' : UploadedFile),
      input_pdf_setup convert jpeg (some f) ≠ .ok (some parts, msgs, f') := by
  have h1 : input_pdf_setup convert jpeg (some f) =
      .ok (corruptDocumentResult m (UploadedFile.mk f.data f.data.length)) := by
    simp [input_pdf_setup, seek0, read, hconv, PdfError.str]
  refine ⟨h1, fun parts msgs f' hne => ?_⟩
  rw [h1] at hne
  simp [corruptDocumentResult] at hne

/-- Witness for C4: a 0-byte uploaded file whose decoding raises. -/
theorem input_pdf_setup_decode_error_corrupt_witness :
    input_pdf_setup
        (fun _ => Except.error (PdfError.decodeError "Unable to get page count."))
        (fun i : Nat => Except.ok [i]) (some (UploadedFile.mk [] 0)) =
      Except.ok (corruptDocumentResult "Unable to get page count."
        (UploadedFile.mk [] 0)) ∧
    ∀ (parts : List PdfPart) (msgs : List UiMsg) (f' : UploadedFile),
      input_pdf_setup
          (fun _ => Except.error (PdfError.decodeError "Unable to get page count."))
          (fun i : Nat => Except.ok [i]) (some (UploadedFile.mk [] 0)) ≠
        Except.ok (some parts, msgs, f') :=
  input_pdf_setup_decode_error_corrupt _ _ _ "Unable to get page count." rfl

set_option maxRecDepth 8000 in
/-- Claim C5: each action of the catalog maps to one fixed template string,
and across the eight actions the templates are non-empty and pairwise
distinct. -/
theorem templateCatalog_nonempty_pairwise_distinct :
    (∀ a : ActionId, templateCatalog a ≠ "") ∧
    ∀ a b : ActionId, a ≠ b → templateCatalog a ≠ templateCatalog b := by
  constructor
  · decide
  · decide

/-- Witness for C5: the Project Feasibility template is non-empty and differs
from the Implementation Roadmap template. -/
theorem templateCatalog_nonempty_pairwise_distinct_witness :
    templateCatalog ActionId.projectFeasibility ≠ "" ∧
    templateCatalog ActionId.projectFeasibility ≠
      templateCatalog ActionId.implementationRoadmap :=
  ⟨templateCatalog_nonempty_pairwise_distinct.1 _,
   templateCatalog_nonempty_pairwise_distinct.2 _ _ (by decide)⟩

/-- Counterexample to claim C6 as stated: for the input `none` (no file
uploaded), `input_pdf_setup` does not return its failure as a value — it
raises `FileNotFoundError("No file uploaded")`, an exception escaping to the
caller. -/
theorem input_pdf_setup_none_raises :
    input_pdf_setup (fun _ => Except.ok ([] : List Nat)) (fun i => Except.ok [i])
      none = Except.error (PyExn.fileNotFoundError "No file uploaded") := rfl

/-- Claim C6 (amended): for every non-`None` uploaded file, `input_pdf_setup`
returns every failure as a value (it always returns, never raises), and
`get_gemini_response` returns a value for every input; on a `None` argument,
`input_pdf_setup` instead raises `FileNotFoundError`. -/
theorem failures_returned_as_values {Img : Type}
    (convert : List Nat → Except PdfError (List Img))
    (jpeg : Img → Except String (List Nat))
    (generate : String → PdfPart → String → GenOutcome) :
    (∀ f : UploadedFile, ∃ out, input_pdf_setup convert jpeg (some f) = .ok out) ∧
    (∀ context pdf_content prompt, ∃ text msgs,
      get_gemini_response generate context pdf_content prompt = (text, msgs)) ∧
    input_pdf_setup convert jpeg none =
      .error (PyExn.fileNotFoundError "No file uploaded") := by
  refine ⟨fun f => ?_, fun context pdf_content prompt => ⟨_, _, rfl⟩, rfl⟩
  rcases hc : convert f.data with e | images
  · exact ⟨corruptDocumentResult (PdfError.str e)
      (UploadedFile.mk f.data f.data.length),
      by simp [input_pdf_setup, seek0, read, hc]⟩
  · rcases images with _ | ⟨first_page, restPages⟩
    · exact ⟨emptyDocumentResult (UploadedFile.mk f.data f.data.length),
        by simp [input_pdf_setup, seek0, read, hc]⟩
    · rcases hj : jpeg first_page with e | bs
      · exact ⟨(none,
          [UiMsg.error ("Unexpected error processing PDF: " ++ e),
           UiMsg.info "Please try uploading a different PDF file or contact support if the issue persists."],
          UploadedFile.mk f.data f.data.length),
          by simp [input_pdf_setup, seek0, read, hc, hj]⟩
      · exact ⟨(some [PdfPart.mk "image/jpeg" (base64Encode bs)], [],
          UploadedFile.mk f.data f.data.length),
          by simp [input_pdf_setup, seek0, read, hc, hj]⟩

/-- Counterexample to claim C7 as stated: a rasterization failure caused by
the absent native prerequisite (poppler) yields exactly the same result —
and hence the same classification, the corrupt-document branch — as a decode
failure with the same message; the two causes are not distinguished. -/
theorem missing_dependency_same_classification_as_corrupt :
    input_pdf_setup (fun _ => Except.error (PdfError.missingDependency "err"))
        (fun i : Nat => Except.ok [i]) (some (UploadedFile.mk [0] 0)) =
      input_pdf_setup (fun _ => Except.error (PdfError.decodeError "err"))
        (fun i : Nat => Except.ok [i]) (some (UploadedFile.mk [0] 0)) ∧
    input_pdf_setup (fun _ => Except.error (PdfError.missingDependency "err"))
        (fun i : Nat => Except.ok [i]) (some (UploadedFile.mk [0] 0)) =
      Except.ok (corruptDocumentResult "err" (UploadedFile.mk [0] 1)) :=
  ⟨rfl, rfl⟩

/-- Claim C7 (amended): when the rasterization capability fails because its
native runtime prerequisite is absent, `input_pdf_setup` reports the failure
under the same corrupt-document classification (`"PDF processing error: "`
plus the underlying message) used for undecodable bytes; the underlying
exception message is the only distinction carried. -/
theorem missing_dependency_reported_as_corrupt {Img : Type}
    (convert : List Nat → Except PdfError (List Img))
    (jpeg : Img → Except String (List Nat)) (f : UploadedFile) (m : String)
    (hconv : convert f.data = .error (PdfError.missingDependency m)) :
    input_pdf_setup convert jpeg (some f) =
      .ok (corruptDocumentResult m (UploadedFile.mk f.data f.data.length)) := by
  simp [input_pdf_setup, seek0, read, hconv, PdfError.str]

/-- Witness for the amended C7: a concrete run where poppler is missing. -/
theorem missing_dependency_reported_as_corrupt_witness :
    input_pdf_setup
        (fun _ => Except.error (PdfError.missingDependency
          "Unable to get page count. Is poppler installed and in PATH?"))
        (fun i : Nat => Except.ok [i]) (some (UploadedFile.mk [3] 0)) =
      Except.ok (corruptDocumentResult
        "Unable to get page count. Is poppler installed and in PATH?"
        (UploadedFile.mk [3] 1)) :=
  missing_dependency_reported_as_corrupt _ _ _ _ rfl

/-- Claim C8: when the inference capability succeeds with text `t`,
`get_gemini_response` returns exactly `t`, unchanged, with no message
emitted. -/
theorem get_gemini_response_success_passthrough
    (generate : String → PdfPart → String → GenOutcome)
    (context : String) (part : PdfPart) (rest : List PdfPart)
    (prompt t : String)
    (hsucc : generate context part prompt = .success t) :
    get_gemini_response generate context (part :: rest) prompt = (t, []) := by
  simp [get_gemini_response, hsucc]

/-- Witness for C8: a stub capability that always answers `"RISK: LOW"`. -/
theorem get_gemini_response_success_passthrough_witness :
    get_gemini_response (fun _ _ _ => GenOutcome.success "RISK: LOW") "ctx"
        [PdfPart.mk "image/jpeg" "AQID"] "prompt" = ("RISK: LOW", []) :=
  get_gemini_response_success_passthrough _ "ctx" _ [] "prompt" "RISK: LOW" rfl

/-- Claim C9: `input_pdf_setup` resets the stream to its origin before
reading, so it reads the full document regardless of the incoming position,
and a second normalization of the stream returned by a first run reproduces
the first run's result exactly. -/
theorem input_pdf_setup_reentrant {Img : Type}
    (convert : List Nat → Except PdfError (List Img))
    (jpeg : Img → Except String (List Nat)) (f : UploadedFile)
    (res : Option (List PdfPart)) (msgs : List UiMsg) (f' : UploadedFile)
    (h : input_pdf_setup convert jpeg (some f) = .ok (res, msgs, f')) :
    (read (seek0 f)).1 = f.data ∧
    input_pdf_setup convert jpeg (some f') = .ok (res, msgs, f') := by
  refine ⟨by simp [read, seek0], ?_⟩
  have hf' : f' = UploadedFile.mk f.data f.data.length :=
    input_pdf_setup_final_stream convert jpeg f res msgs f' h
  calc input_pdf_setup convert jpeg (some f')
      = input_pdf_setup convert jpeg (some (UploadedFile.mk f.data f.pos)) := by
        rw [hf']; exact input_pdf_setup_pos_independent convert jpeg f.data _ _
    _ = input_pdf_setup convert jpeg (some f) := by cases f; rfl
    _ = .ok (res, msgs, f') := h

/-- Witness for C9: a concrete stream read at position 1; the rerun on the
returned stream gives the same payload. -/
theorem input_pdf_setup_reentrant_witness :
    (read (seek0 (UploadedFile.mk [9, 8] 1))).1 = [9, 8] ∧
    input_pdf_setup (fun _ => Except.ok [(5 : Nat)]) (fun i => Except.ok [i])
        (some (UploadedFile.mk [9, 8] 2)) =
      Except.ok (some [PdfPart.mk "image/jpeg" "BQ=="], [],
        UploadedFile.mk [9, 8] 2) :=
  input_pdf_setup_reentrant (fun _ => Except.ok [(5 : Nat)])
    (fun i => Except.ok [i]) (UploadedFile.mk [9, 8] 1) _ _ _ rfl

/-- Claim C10: for every non-`None` argument, `input_pdf_setup` returns
(never raises), and its value is either `None` or a list of exactly one
payload; for the `None` argument it raises `FileNotFoundError` instead. -/
theorem input_pdf_setup_total_shape {Img : Type}
    (convert : List Nat → Except PdfError (List Img))
    (jpeg : Img → Except String (List Nat)) :
    (∀ f : UploadedFile, ∃ res msgs f',
      input_pdf_setup convert jpeg (some f) = .ok (res, msgs, f') ∧
      (res = none ∨ ∃ part, res = some [part])) ∧
    input_pdf_setup convert jpeg none =
      .error (PyExn.fileNotFoundError "No file uploaded") := by
  refine ⟨fun f => ?_, rfl⟩
  rcases hc : convert f.data with e | images
  · refine ⟨none, [UiMsg.error ("PDF processing error: " ++ PdfError.str e),
      UiMsg.info pdfTroubleshootingInfo],
      UploadedFile.mk f.data f.data.length, ?_, Or.inl rfl⟩
    simp [input_pdf_setup, seek0, read, hc, corruptDocumentResult]
  · rcases images with _ | ⟨first_page, restPages⟩
    · refine ⟨none,
        [UiMsg.warning "No pages found in the PDF. Please check if the PDF file is valid."],
        UploadedFile.mk f.data f.data.length, ?_, Or.inl rfl⟩
      simp [input_pdf_setup, seek0, read, hc, emptyDocumentResult]
    · rcases hj : jpeg first_page with e | bs
      · refine ⟨none,
          [UiMsg.error ("Unexpected error processing PDF: " ++ e),
           UiMsg.info "Please try uploading a different PDF file or contact support if the issue persists."],
          UploadedFile.mk f.data f.data.length, ?_, Or.inl rfl⟩
        simp [input_pdf_setup, seek0, read, hc, hj]
      · refine ⟨some [PdfPart.mk "image/jpeg" (base64Encode bs)], [],
          UploadedFile.mk f.data f.data.length, ?_,
          Or.inr ⟨PdfPart.mk "image/jpeg" (base64Encode bs), rfl⟩⟩
        simp [input_pdf_setup, seek0, read, hc, hj]

end ConsultingAssistant
